import Mathlib

/-!
Shallow embedding of `src/check_ToD.py`: a camera-trap night/day classifier.

The script walks a directory tree, filters files by extension, decodes each
image with OpenCV, computes the mean saturation and mean value of the HSV
representation, classifies the image as night when the mean saturation is
below 5.0, and accumulates one record per classified image.  The driver
`main` parses two positional arguments, asserts the image directory exists,
and writes the resulting table to `<save>.csv`.

Modelling choices:
* The filesystem traversal (`os.walk`) is an input: a list of `WalkEntry`,
  one per visited directory, carrying the directory's path components
  relative to the scanned root (`[]` for the root itself) and its file
  names, in the order the walk yields them.
* Image decoding plus the HSV statistics (`cv2.imread`, `cv2.cvtColor`,
  channel means) are abstracted by an oracle
  `imread : List String → String → Option (ℚ × ℚ)` mapping a file (keyed
  by its directory's relative components and its name) to its mean
  saturation and mean value, or `none` when `cv2.imread` fails to decode
  the file (Python's `cv2.imread` returns `None` then, and the subsequent
  `cv2.cvtColor(None, ...)` raises an unhandled `cv2.error`).
* Channel means are exact rationals (means of 8-bit channel values).
* The host path separator `os.sep` is a parameter `sep`, since
  `os.path.relpath` joins components with the host separator.
* Python exceptions surface as `Except` errors; an `Except.error` result
  carries no records, matching an exception that aborts `check_ToD` before
  it returns.
-/

/-- Python `or` specialised to strings: returns the left operand when it is
truthy (non-empty), otherwise the right operand. -/
def pyOr (a b : String) : String :=
  if a = "" then b else a

/-- The argument the source passes to `str.endswith` on line 56:
the Python expression `'.JPG' or '.jpg' or '.JPEG' or '.jpeg'`
(left-associated `or` chain). -/
def extPattern : String :=
  pyOr (pyOr (pyOr ".JPG" ".jpg") ".JPEG") ".jpeg"

/-- Python's `str.endswith` on a single suffix: a suffix test on the
character sequence. -/
def pyEndsWith (s suffix : String) : Bool :=
  suffix.data.isSuffixOf s.data

/-- The filename filter of line 56: `f.endswith('.JPG' or '.jpg' or '.JPEG' or '.jpeg')`. -/
def extFilter (f : String) : Bool :=
  pyEndsWith f extPattern

/-- Embeds `os.path.relpath(directory, start=image_directory)` (line 54) for a
directory lying at the given list of path components beneath the scanned
root: `"."` for the root itself, otherwise the components joined with the
host path separator `sep` (`os.sep`). -/
def relpath (sep : String) : List String → String
  | [] => "."
  | c :: cs => cs.foldl (fun acc d => acc ++ sep ++ d) c

/-- One row appended to `data` by `check_ToD` (lines 62-66): the dict
`{'filename': ..., 'saturation': ..., 'value': ..., 'Night': ...}`. -/
structure ImageRecord where
  filename : String
  saturation : ℚ
  value : ℚ
  Night : Bool
  deriving DecidableEq, Repr

/-- Python exceptions the script can raise. -/
inductive PyError where
  /-- The `cv2.error` raised by `cv2.cvtColor` (line 58) when `cv2.imread`
  returned `None` for an undecodable file. -/
  | cvtColorError : PyError
  /-- The `AttributeError` raised by accessing a missing attribute on the
  `argparse.Namespace` (line 91 reads `args.output_directory`). -/
  | attributeError : String → PyError
  /-- The `AssertionError` of line 89 when the image directory is missing. -/
  | assertionError : PyError
  deriving DecidableEq, Repr

/-- One triple yielded by `os.walk(image_directory)` (line 53), keyed by the
directory's path components relative to the root (`[]` for the root itself)
together with its list of file names, in traversal order. -/
structure WalkEntry where
  relComponents : List String
  files : List String
  deriving DecidableEq, Repr

/-- The loop body for one file `f` (lines 56-66): apply the extension filter,
decode, and classify.  Returns `Except.ok (some r)` when a record `r` is
appended, `Except.ok none` when the file is filtered out or the saturation
hits neither branch, and `Except.error` when the decode failure propagates
as an unhandled `cv2.error`. -/
def processFile (sep : String) (imread : List String → String → Option (ℚ × ℚ))
    (comps : List String) (f : String) : Except PyError (Option ImageRecord) :=
  if extFilter f then
    match imread comps f with
    | none => Except.error PyError.cvtColorError
    | some (s, v) =>
      if s < 5 then
        Except.ok (some ⟨relpath sep comps ++ "/" ++ f, s, v, true⟩)
      else if 5 < s then
        Except.ok (some ⟨relpath sep comps ++ "/" ++ f, s, v, false⟩)
      else
        Except.ok none
  else
    Except.ok none

/-- The inner `for f in files` loop (lines 55-66) over one directory's files,
accumulating appended records in order; the first unhandled decode fault
aborts the loop. -/
def processFiles (sep : String) (imread : List String → String → Option (ℚ × ℚ))
    (comps : List String) : List String → Except PyError (List ImageRecord)
  | [] => Except.ok []
  | f :: fs =>
    match processFile sep imread comps f with
    | Except.error e => Except.error e
    | Except.ok o =>
      match processFiles sep imread comps fs with
      | Except.error e => Except.error e
      | Except.ok rest =>
        Except.ok (match o with | none => rest | some r => r :: rest)

/-- The function `check_ToD` (lines 41-68): fold the walk in traversal order,
appending the records of each directory; an unhandled exception aborts the
whole run, losing the accumulated list. -/
def checkToD (sep : String) (imread : List String → String → Option (ℚ × ℚ)) :
    List WalkEntry → Except PyError (List ImageRecord)
  | [] => Except.ok []
  | e :: es =>
    match processFiles sep imread e.relComponents e.files with
    | Except.error err => Except.error err
    | Except.ok rs =>
      match checkToD sep imread es with
      | Except.error err => Except.error err
      | Except.ok rest => Except.ok (rs ++ rest)

/-- The record `check_ToD` appends for one file, if any: `some r` exactly when
processing the file appends record `r`, `none` when the file is filtered out,
undecodable, or on the untaken saturation boundary. -/
def recordOf (sep : String) (imread : List String → String → Option (ℚ × ℚ))
    (comps : List String) (f : String) : Option ImageRecord :=
  match processFile sep imread comps f with
  | Except.ok o => o
  | Except.error _ => none

/-- The records of a whole walk, one `filterMap` per directory in traversal
order: the reference sequence `check_ToD` builds append-only. -/
def traversalRecords (sep : String) (imread : List String → String → Option (ℚ × ℚ)) :
    List WalkEntry → List ImageRecord
  | [] => []
  | e :: es =>
    e.files.filterMap (recordOf sep imread e.relComponents) ++
      traversalRecords sep imread es

/-- The `argparse.Namespace` produced by `parser.parse_args()` (line 87): it
carries exactly the two declared positional arguments. -/
structure ArgNamespace where
  image_directory : String
  save : String
  deriving DecidableEq, Repr

/-- Python attribute lookup on the parsed namespace: only the two declared
arguments exist; any other attribute access raises `AttributeError`. -/
def getattr (ns : ArgNamespace) (a : String) : Option String :=
  if a = "image_directory" then some ns.image_directory
  else if a = "save" then some ns.save
  else none

/-- The driver `main` (lines 72-104) after both positional arguments parsed:
assert the image directory exists (line 89), check `args.output_directory`
for the overwrite warning (line 91), run `check_ToD` (line 97), and write
the table to `args.save + ".csv"` (line 101).  The result is the written
path paired with the written records, or the Python exception that aborted
the run.  `path_exists` embeds `os.path.exists`.  (The source names this
function `main`, a name Lean reserves for entry points.) -/
def mainDriver (path_exists : String → Bool) (sep : String)
    (imread : List String → String → Option (ℚ × ℚ)) (walk : List WalkEntry)
    (args : ArgNamespace) : Except PyError (String × List ImageRecord) :=
  if path_exists args.image_directory then
    match getattr args "output_directory" with
    | none => Except.error (PyError.attributeError "output_directory")
    | some _ =>
      match checkToD sep imread walk with
      | Except.error e => Except.error e
      | Except.ok df => Except.ok (args.save ++ ".csv", df)
  else
    Except.error PyError.assertionError

/-- A decode oracle returning the same channel means for every file. -/
def imreadConst (s v : ℚ) : List String → String → Option (ℚ × ℚ) :=
  fun _ _ => some (s, v)

/-- A decode oracle on which every decode fails (`cv2.imread` gives `None`). -/
def imreadFail : List String → String → Option (ℚ × ℚ) :=
  fun _ _ => none

/-! ## Helper lemmas -/

/-- Processing one file either raises the colour-conversion fault or
returns normally: no other exception escapes the loop body. -/
theorem processFile_cases (sep : String) (imread : List String → String → Option (ℚ × ℚ))
    (comps : List String) (f : String) :
    processFile sep imread comps f = Except.error PyError.cvtColorError ∨
      ∃ o, processFile sep imread comps f = Except.ok o := by
  unfold processFile
  by_cases hf : extFilter f = true
  · simp only [hf, if_true]
    cases himg : imread comps f with
    | none => exact Or.inl rfl
    | some sv =>
      obtain ⟨s, v⟩ := sv
      by_cases h1 : s < 5
      · refine Or.inr ⟨some ⟨relpath sep comps ++ "/" ++ f, s, v, true⟩, ?_⟩
        simp [h1]
      · by_cases h2 : 5 < s
        · refine Or.inr ⟨some ⟨relpath sep comps ++ "/" ++ f, s, v, false⟩, ?_⟩
          simp [h1, h2]
        · refine Or.inr ⟨none, ?_⟩
          simp [h1, h2]
  · simp [hf]

/-- The inner loop either raises the colour-conversion fault or returns a list. -/
theorem processFiles_cases (sep : String) (imread : List String → String → Option (ℚ × ℚ))
    (comps : List String) (fs : List String) :
    processFiles sep imread comps fs = Except.error PyError.cvtColorError ∨
      ∃ l, processFiles sep imread comps fs = Except.ok l := by
  induction fs with
  | nil => exact Or.inr ⟨[], rfl⟩
  | cons f fs ih =>
    rcases processFile_cases sep imread comps f with hpf | ⟨o, hpf⟩
    · exact Or.inl (by simp [processFiles, hpf])
    · rcases ih with h | ⟨l, h⟩
      · exact Or.inl (by simp [processFiles, hpf, h])
      · refine Or.inr ⟨(match o with | none => l | some r => r :: l), ?_⟩
        simp only [processFiles, hpf, h]
        cases o <;> rfl

/-- A normal return of the inner loop is exactly the `filterMap` of the
per-file records over the directory's files, in order. -/
theorem processFiles_ok (sep : String) (imread : List String → String → Option (ℚ × ℚ))
    (comps : List String) :
    ∀ fs l, processFiles sep imread comps fs = Except.ok l →
      l = List.filterMap (recordOf sep imread comps) fs := by
  intro fs
  induction fs with
  | nil =>
    intro l h
    simp only [processFiles] at h
    cases h
    rfl
  | cons f fs ih =>
    intro l h
    unfold processFiles at h
    cases hpf : processFile sep imread comps f with
    | error e => rw [hpf] at h; cases h
    | ok o =>
      rw [hpf] at h
      cases hrest : processFiles sep imread comps fs with
      | error e => rw [hrest] at h; cases h
      | ok rest =>
        rw [hrest] at h
        cases h
        have ho : recordOf sep imread comps f = o := by
          simp [recordOf, hpf]
        rw [List.filterMap_cons, ho, ← ih rest hrest]
        cases o <;> rfl

/-- A normal return of `check_ToD` is exactly the traversal-ordered record
sequence. -/
theorem checkToD_ok (sep : String) (imread : List String → String → Option (ℚ × ℚ)) :
    ∀ walk l, checkToD sep imread walk = Except.ok l →
      l = traversalRecords sep imread walk := by
  intro walk
  induction walk with
  | nil =>
    intro l h
    simp only [checkToD] at h
    cases h
    rfl
  | cons e es ih =>
    intro l h
    unfold checkToD at h
    cases hfs : processFiles sep imread e.relComponents e.files with
    | error err => rw [hfs] at h; cases h
    | ok rs =>
      rw [hfs] at h
      cases hes : checkToD sep imread es with
      | error err => rw [hes] at h; cases h
      | ok rest =>
        rw [hes] at h
        cases h
        rw [traversalRecords, ← ih rest hes, ← processFiles_ok sep imread e.relComponents e.files rs hfs]

/-- Every record of the traversal sequence comes from processing one file of
one walked directory. -/
theorem mem_traversalRecords (sep : String) (imread : List String → String → Option (ℚ × ℚ)) :
    ∀ walk (r : ImageRecord), r ∈ traversalRecords sep imread walk →
      ∃ e, e ∈ walk ∧ ∃ f, f ∈ e.files ∧ recordOf sep imread e.relComponents f = some r := by
  intro walk
  induction walk with
  | nil => intro r h; simp [traversalRecords] at h
  | cons e es ih =>
    intro r h
    rw [traversalRecords, List.mem_append] at h
    cases h with
    | inl h =>
      obtain ⟨f, hf, hrec⟩ := List.mem_filterMap.mp h
      exact ⟨e, List.mem_cons_self e es, f, hf, hrec⟩
    | inr h =>
      obtain ⟨e', he', hfs⟩ := ih r h
      exact ⟨e', List.mem_cons_of_mem e he', hfs⟩

/-- Anatomy of an appended record: the file passed the filter, the filename
is the relative directory joined by `'/'` to the file name, the `Night` flag
is exactly the below-threshold test, and the boundary saturation 5 never
produces a record. -/
theorem recordOf_some (sep : String) (imread : List String → String → Option (ℚ × ℚ))
    (comps : List String) (f : String) (r : ImageRecord)
    (h : recordOf sep imread comps f = some r) :
    extFilter f = true ∧ r.filename = relpath sep comps ++ "/" ++ f ∧
      r.Night = decide (r.saturation < 5) ∧ r.saturation ≠ 5 := by
  unfold recordOf processFile at h
  by_cases hf : extFilter f = true
  · rw [if_pos hf] at h
    cases himg : imread comps f with
    | none => rw [himg] at h; exact absurd h (by simp)
    | some sv =>
      obtain ⟨s, v⟩ := sv
      rw [himg] at h
      dsimp only at h
      by_cases h1 : s < 5
      · rw [if_pos h1] at h
        dsimp only at h
        cases h
        exact ⟨hf, rfl, by simp [h1], ne_of_lt h1⟩
      · rw [if_neg h1] at h
        by_cases h2 : 5 < s
        · rw [if_pos h2] at h
          dsimp only at h
          cases h
          exact ⟨hf, rfl, by simp [h1], ne_of_gt h2⟩
        · rw [if_neg h2] at h
          exact absurd h (by simp)
  · rw [if_neg hf] at h
    exact absurd h (by simp)

/-- If some file of the directory passes the filter but fails to decode, the
inner loop raises the colour-conversion fault. -/
theorem processFiles_error (sep : String) (imread : List String → String → Option (ℚ × ℚ))
    (comps : List String) :
    ∀ fs, (∃ f, f ∈ fs ∧ extFilter f = true ∧ imread comps f = none) →
      processFiles sep imread comps fs = Except.error PyError.cvtColorError := by
  intro fs
  induction fs with
  | nil =>
    rintro ⟨f, hf, -, -⟩
    cases hf
  | cons g fs ih =>
    rintro ⟨f, hf, hext, hnone⟩
    rcases List.mem_cons.mp hf with rfl | hf
    · have hpf : processFile sep imread comps f = Except.error PyError.cvtColorError := by
        simp [processFile, hext, hnone]
      simp [processFiles, hpf]
    · rcases processFile_cases sep imread comps g with hpg | ⟨o, hpg⟩
      · simp [processFiles, hpg]
      · have hrec := ih ⟨f, hf, hext, hnone⟩
        simp [processFiles, hpg, hrec]

/-- If some walked directory holds a file that passes the filter but fails to
decode, `check_ToD` raises the colour-conversion fault. -/
theorem checkToD_error (sep : String) (imread : List String → String → Option (ℚ × ℚ)) :
    ∀ walk, (∃ e, e ∈ walk ∧ ∃ f, f ∈ e.files ∧ extFilter f = true ∧
        imread e.relComponents f = none) →
      checkToD sep imread walk = Except.error PyError.cvtColorError := by
  intro walk
  induction walk with
  | nil =>
    rintro ⟨e, he, -⟩
    cases he
  | cons e es ih =>
    rintro ⟨e', he', hbad⟩
    rcases List.mem_cons.mp he' with rfl | he'
    · have hfs := processFiles_error sep imread e'.relComponents e'.files hbad
      simp [checkToD, hfs]
    · rcases processFiles_cases sep imread e.relComponents e.files with hfs | ⟨l, hfs⟩
      · simp [checkToD, hfs]
      · have hrec := ih ⟨e', he', hbad⟩
        simp [checkToD, hfs, hrec]

/-- A directory none of whose files pass the filter contributes nothing. -/
theorem processFiles_filtered (sep : String) (imread : List String → String → Option (ℚ × ℚ))
    (comps : List String) :
    ∀ fs, (∀ f, f ∈ fs → extFilter f = false) →
      processFiles sep imread comps fs = Except.ok [] := by
  intro fs
  induction fs with
  | nil => intro _; rfl
  | cons g fs ih =>
    intro hall
    have hg : extFilter g = false := hall g (List.mem_cons_self g fs)
    have hpg : processFile sep imread comps g = Except.ok none := by
      simp [processFile, hg]
    have hrec := ih fun f hf => hall f (List.mem_cons_of_mem g hf)
    simp [processFiles, hpg, hrec]

/-- A walk none of whose files pass the filter yields the empty collection. -/
theorem checkToD_filtered (sep : String) (imread : List String → String → Option (ℚ × ℚ)) :
    ∀ walk, (∀ e, e ∈ walk → ∀ f, f ∈ e.files → extFilter f = false) →
      checkToD sep imread walk = Except.ok [] := by
  intro walk
  induction walk with
  | nil => intro _; rfl
  | cons e es ih =>
    intro hall
    have hfs := processFiles_filtered sep imread e.relComponents e.files
      (hall e (List.mem_cons_self e es))
    have hrec := ih fun e' he' => hall e' (List.mem_cons_of_mem e he')
    simp [checkToD, hfs, hrec]

/-! ## Claims -/

/-- C1: for every image record appended to the result collection by the
classifier, the `Night` field equals the test `saturation < 5.0`; in
particular every appended record with mean saturation strictly below 5.0 has
`Night` true and every appended record with mean saturation strictly above
5.0 has `Night` false. -/
theorem night_field_matches_threshold (sep : String)
    (imread : List String → String → Option (ℚ × ℚ)) (walk : List WalkEntry)
    (l : List ImageRecord) (r : ImageRecord)
    (h : checkToD sep imread walk = Except.ok l) (hr : r ∈ l) :
    r.Night = decide (r.saturation < 5) := by
  rw [checkToD_ok sep imread walk l h] at hr
  obtain ⟨e, -, f, -, hrec⟩ := mem_traversalRecords sep imread walk r hr
  exact (recordOf_some sep imread e.relComponents f r hrec).2.2.1

/-- Witness for C1 at a concrete run: one image of mean saturation 2 yields a
record whose `Night` field is the below-threshold test. -/
theorem night_field_matches_threshold_witness :
    (ImageRecord.mk "sub/a.JPG" 2 100 true).Night =
      decide ((ImageRecord.mk "sub/a.JPG" 2 100 true).saturation < 5) :=
  night_field_matches_threshold "/" (imreadConst 2 100) [⟨["sub"], ["a.JPG"]⟩]
    [⟨"sub/a.JPG", 2, 100, true⟩] ⟨"sub/a.JPG", 2, 100, true⟩ rfl (by simp)

/-- C2 is refuted by the code: the Python expression
`'.JPG' or '.jpg' or '.JPEG' or '.jpeg'` evaluates to its first truthy
operand `".JPG"`, so line 56 only tests `endswith('.JPG')`: the file
`photo.jpeg` (and likewise `photo.jpg`, `photo.JPEG`) fails the filter and a
directory holding only `photo.jpeg` produces no record, while `photo.PNG`
and `photo.JPG.bak` are indeed rejected. -/
theorem extension_filter_only_accepts_upper_JPG :
    extPattern = ".JPG" ∧
      extFilter "photo.JPG" = true ∧
      extFilter "photo.jpeg" = false ∧
      extFilter "photo.jpg" = false ∧
      extFilter "photo.JPEG" = false ∧
      extFilter "photo.PNG" = false ∧
      extFilter "photo.JPG.bak" = false ∧
      checkToD "/" (imreadConst 100 100) [⟨[], ["photo.jpeg"]⟩] = Except.ok [] :=
  ⟨rfl, rfl, rfl, rfl, rfl, rfl, rfl, rfl⟩

/-- Counterexample to C3: a decodable image whose mean saturation is exactly
5.0 produces no appended record at all — the run returns an empty collection
instead of appending a day record with `Night` false. -/
theorem saturation_boundary_counterexample :
    checkToD "/" (imreadConst 5 100) [⟨["sub"], ["a.JPG"]⟩] = Except.ok [] := rfl

/-- C3 amended: for every image whose mean saturation is exactly 5.0,
neither branch of the `if saturation < 5.0 / elif saturation > 5.0` chain is
taken and no record is appended: the boundary image is silently dropped. -/
theorem saturation_boundary_amended (sep : String)
    (imread : List String → String → Option (ℚ × ℚ)) (comps : List String)
    (f : String) (v : ℚ) (hf : extFilter f = true)
    (hi : imread comps f = some (5, v)) :
    processFile sep imread comps f = Except.ok none := by
  simp [processFile, hf, hi]

/-- Witness for the amended C3 at a concrete boundary image. -/
theorem saturation_boundary_amended_witness :
    processFile "/" (imreadConst 5 100) ["sub"] "a.JPG" = Except.ok none :=
  saturation_boundary_amended "/" (imreadConst 5 100) ["sub"] "a.JPG" 100 rfl rfl

/-- C4: if any file passing the extension filter fails to decode (the decode
step yields `None`), the colour-space conversion fault aborts the entire
run: `check_ToD` ends in the unhandled `cv2.error` and returns no record
collection, so the already-accumulated records are lost. -/
theorem decode_failure_aborts_run (sep : String)
    (imread : List String → String → Option (ℚ × ℚ)) (walk : List WalkEntry)
    (h : ∃ e, e ∈ walk ∧ ∃ f, f ∈ e.files ∧ extFilter f = true ∧
        imread e.relComponents f = none) :
    checkToD sep imread walk = Except.error PyError.cvtColorError :=
  checkToD_error sep imread walk h

/-- Witness for C4: a walk whose files never decode ends in the fault. -/
theorem decode_failure_aborts_run_witness :
    checkToD "/" imreadFail [⟨[], ["a.JPG", "b.JPG"]⟩, ⟨["sub"], ["c.JPG"]⟩] =
      Except.error PyError.cvtColorError :=
  decode_failure_aborts_run "/" imreadFail
    [⟨[], ["a.JPG", "b.JPG"]⟩, ⟨["sub"], ["c.JPG"]⟩]
    ⟨⟨[], ["a.JPG", "b.JPG"]⟩, by simp, "a.JPG", by simp, rfl, rfl⟩

/-- Counterexample to C5: on a host whose path separator is a backslash
(`os.sep` as used by `os.path.relpath`), an image two levels below the root
is recorded with a backslash inside the directory part, not with forward
slashes throughout. -/
theorem nested_path_separator_counterexample :
    checkToD "\\" (imreadConst 2 7) [⟨["a", "b"], ["x.JPG"]⟩] =
      Except.ok [⟨"a\\b/x.JPG", 2, 7, true⟩] ∧ "a\\b/x.JPG" ≠ "a/b/x.JPG" :=
  ⟨rfl, by decide⟩

/-- C5 amended: the recorded filename is the relative directory as yielded
by `os.path.relpath` — components joined with the host path separator —
followed by a forward slash and the file name; for an image in an immediate
subdirectory, such as `<root>/sub/a.JPG`, this gives `sub/a.JPG` regardless
of host separator, but deeper nesting keeps the host's separator inside the
directory part instead of normalizing it to forward slashes. -/
theorem relative_filename_amended (sep : String)
    (imread : List String → String → Option (ℚ × ℚ)) (comps : List String)
    (f : String) (r : ImageRecord)
    (h : processFile sep imread comps f = Except.ok (some r)) :
    r.filename = relpath sep comps ++ "/" ++ f ∧
      ∀ c, comps = [c] → r.filename = c ++ "/" ++ f := by
  have hrec : recordOf sep imread comps f = some r := by simp [recordOf, h]
  have hfn := (recordOf_some sep imread comps f r hrec).2.1
  refine ⟨hfn, ?_⟩
  rintro c rfl
  simpa [relpath] using hfn

/-- Witness for the amended C5 at a concrete single-level image. -/
theorem relative_filename_amended_witness :
    (ImageRecord.mk "sub/a.JPG" 2 100 true).filename =
        relpath "/" ["sub"] ++ "/" ++ "a.JPG" ∧
      ∀ c, ["sub"] = [c] →
        (ImageRecord.mk "sub/a.JPG" 2 100 true).filename = c ++ "/" ++ "a.JPG" :=
  relative_filename_amended "/" (imreadConst 2 100) ["sub"] "a.JPG"
    ⟨"sub/a.JPG", 2, 100, true⟩ rfl

/-- C6 is refuted by the code: with both positional arguments supplied and
an existing image directory, line 91 reads `args.output_directory`, an
attribute the parser never defines, so the driver raises `AttributeError`
before running the classifier and never writes `<save>.csv`. -/
theorem driver_attribute_error (path_exists : String → Bool) (sep : String)
    (imread : List String → String → Option (ℚ × ℚ)) (walk : List WalkEntry)
    (args : ArgNamespace) (h : path_exists args.image_directory = true) :
    mainDriver path_exists sep imread walk args =
      Except.error (PyError.attributeError "output_directory") := by
  have hga : getattr args "output_directory" = none := rfl
  simp [mainDriver, h, hga]

/-- Witness for C6's refutation: a concrete invocation with an existing
image directory still faults. -/
theorem driver_attribute_error_witness :
    mainDriver (fun _ => true) "/" (imreadConst 2 100) [⟨[], ["a.JPG"]⟩]
      ⟨"imgs", "out"⟩ = Except.error (PyError.attributeError "output_directory") :=
  driver_attribute_error (fun _ => true) "/" (imreadConst 2 100)
    [⟨[], ["a.JPG"]⟩] ⟨"imgs", "out"⟩ rfl

/-- C7: the collection a successful run returns is built append-only in
traversal order — directory by directory, file by file as the walk yields
them — with each record created exactly once from its file's processing and
never mutated or removed afterwards: it equals the traversal-ordered record
sequence. -/
theorem records_built_in_traversal_order (sep : String)
    (imread : List String → String → Option (ℚ × ℚ)) (walk : List WalkEntry)
    (l : List ImageRecord) (h : checkToD sep imread walk = Except.ok l) :
    l = traversalRecords sep imread walk :=
  checkToD_ok sep imread walk l h

/-- Witness for C7 at a concrete two-directory walk. -/
theorem records_built_in_traversal_order_witness :
    [ImageRecord.mk "./a.JPG" 2 100 true, ImageRecord.mk "sub/b.JPG" 2 100 true] =
      traversalRecords "/" (imreadConst 2 100) [⟨[], ["a.JPG"]⟩, ⟨["sub"], ["b.JPG"]⟩] :=
  records_built_in_traversal_order "/" (imreadConst 2 100)
    [⟨[], ["a.JPG"]⟩, ⟨["sub"], ["b.JPG"]⟩]
    [⟨"./a.JPG", 2, 100, true⟩, ⟨"sub/b.JPG", 2, 100, true⟩] rfl

/-- C8: the classifier is deterministic — two runs over the same filesystem
traversal with the same decoded image contents (and the same host
separator) produce identical record sequences.  The embedding makes
`check_ToD` a pure function of exactly these inputs: the source reads no
other ambient state (no randomness, no clock, no globals) inside the loop. -/
theorem classifier_deterministic (sep₁ sep₂ : String)
    (imread₁ imread₂ : List String → String → Option (ℚ × ℚ))
    (walk₁ walk₂ : List WalkEntry) (hsep : sep₁ = sep₂) (him : imread₁ = imread₂)
    (hw : walk₁ = walk₂) :
    checkToD sep₁ imread₁ walk₁ = checkToD sep₂ imread₂ walk₂ := by
  rw [hsep, him, hw]

/-- Witness for C8 at a concrete repeated run. -/
theorem classifier_deterministic_witness :
    checkToD "/" (imreadConst 2 100) [⟨["sub"], ["a.JPG"]⟩] =
      checkToD "/" (imreadConst 2 100) [⟨["sub"], ["a.JPG"]⟩] :=
  classifier_deterministic "/" "/" (imreadConst 2 100) (imreadConst 2 100)
    [⟨["sub"], ["a.JPG"]⟩] [⟨["sub"], ["a.JPG"]⟩] rfl rfl rfl

/-- Counterexample to C9: on an empty input directory the program run does
crash — the driver raises `AttributeError` at the overwrite-warning check
before `check_ToD` is even called, so no report (header row or otherwise) is
ever written; nor does any code path log a warning about an empty result. -/
theorem empty_directory_counterexample :
    mainDriver (fun _ => true) "/" (imreadConst 2 100) [⟨[], []⟩] ⟨"imgs", "out"⟩ =
      Except.error (PyError.attributeError "output_directory") := rfl

/-- C9 amended: for an input tree in which no file passes the extension
filter, `check_ToD` itself does not crash and returns the empty record
collection; the reference driver, however, faults before writing any
report, and no warning about the empty result is logged anywhere. -/
theorem empty_directory_amended (sep : String)
    (imread : List String → String → Option (ℚ × ℚ)) (walk : List WalkEntry)
    (h : ∀ e, e ∈ walk → ∀ f, f ∈ e.files → extFilter f = false) :
    checkToD sep imread walk = Except.ok [] :=
  checkToD_filtered sep imread walk h

/-- Witness for the amended C9 at a concrete filterless tree. -/
theorem empty_directory_amended_witness :
    checkToD "/" (imreadConst 2 100) [⟨[], ["notes.txt"]⟩, ⟨["sub"], []⟩] =
      Except.ok [] :=
  empty_directory_amended "/" (imreadConst 2 100)
    [⟨[], ["notes.txt"]⟩, ⟨["sub"], []⟩] (by decide)

/-- C10: every successfully processed file lying directly in the scanned
root is recorded with filename `"./"` followed by its name, because
`os.path.relpath` of the root against itself is `"."` and the code
concatenates it with `'/'` and the file name. -/
theorem root_files_dot_slash_prefix (sep : String)
    (imread : List String → String → Option (ℚ × ℚ)) (f : String)
    (r : ImageRecord) (h : processFile sep imread [] f = Except.ok (some r)) :
    r.filename = "./" ++ f := by
  have hrec : recordOf sep imread [] f = some r := by simp [recordOf, h]
  have hfn := (recordOf_some sep imread [] f r hrec).2.1
  rw [hfn]
  rfl

/-- Witness for C10 at a concrete root-level image. -/
theorem root_files_dot_slash_prefix_witness :
    (ImageRecord.mk "./a.JPG" 2 100 true).filename = "./" ++ "a.JPG" :=
  root_files_dot_slash_prefix "/" (imreadConst 2 100) "a.JPG"
    ⟨"./a.JPG", 2, 100, true⟩ rfl
